import Mathlib

/-!
Verification of the error-style rule engine.

This file shallowly embeds the matching-and-ranking engine of the
repository (`src/engine/rule-engine.ts`), the shipped rule catalog
(`src/rules/core-rules.ts`) and the legacy `prettyTry` helper
(`src/core/index.ts`) in Lean 4, and proves/refutes the frozen claims
about the natural-language specification.

Modelling conventions:
* JavaScript strings are Lean `String`s; `String.prototype.includes` and
  `String.prototype.toLowerCase` are modelled by `jsIncludes` and
  `jsToLower` below (character-wise lowercasing, ASCII contents only).
* Confidence arithmetic (`0.5 + 0.3 + ...` with a final `Math.min(_, 1)`)
  is modelled exactly, in integer hundredths: the base 0.5 is `50`, the
  bonuses 0.3 / 0.2 / 0.1 / 0.05 are `30` / `20` / `10` / `5`, and the
  clamp at 1.0 is the clamp at `100`.  Every score the algorithm can
  produce is a multiple of 0.05, so the scaling is exact; the sub-10⁻¹⁶
  IEEE-754 rounding artifacts of the JavaScript sums are neglected, as
  the specification speaks of exact decimal values.
* `Array.prototype.sort` with comparator `(a, b) => b.confidence - a.confidence`
  is a stable descending sort (stability is guaranteed by ECMAScript 2019);
  it is modelled by `List.mergeSort` (Lean's stable merge sort) with the
  boolean relation `confidenceLE` ("greater-or-equal confidence goes
  first").
* The optional `context` parameter is `Option ErrorContext`; optional
  object fields are `Option` fields.
* Code that can throw is modelled in the `Except Unit` monad in the
  dedicated fallible models further below.
-/

/-! ## JavaScript string primitives -/

/-- Prefix test on character lists: `isPrefOf p l` holds iff `p` is a
prefix of `l`.  Auxiliary for `jsIncludes`. -/
def isPrefOf : List Char → List Char → Bool
  | [], _ => true
  | _ :: _, [] => false
  | a :: as, b :: bs => a == b && isPrefOf as bs

/-- Substring occurrence on character lists: `containsSub hay needle`
holds iff `needle` occurs contiguously in `hay` (the empty needle always
occurs, as in JavaScript). -/
def containsSub (hay needle : List Char) : Bool :=
  isPrefOf needle hay ||
    match hay with
    | [] => false
    | _ :: t => containsSub t needle

/-- Model of JavaScript `s.includes(sub)`: substring containment. -/
def jsIncludes (s sub : String) : Bool :=
  containsSub s.toList sub.toList

/-- Model of JavaScript `s.toLowerCase()` for the ASCII strings used by
the catalog: character-wise lowercasing. -/
def jsToLower (s : String) : String :=
  String.mk (s.toList.map Char.toLower)

/-! ## Data model (`src/rules/types.ts`) -/

/-- The closed set of rule categories
(`category: 'javascript' | 'nodejs' | 'react' | 'network' | 'async' | 'json'`). -/
inductive Category where
  | javascript
  | nodejs
  | react
  | network
  | async
  | json
deriving DecidableEq, Repr

/-- The optional severity tiers (`severity?: 'low' | 'medium' | 'high' | 'critical'`). -/
inductive Severity where
  | low
  | medium
  | high
  | critical
deriving DecidableEq, Repr

/-- A JavaScript `Error` as consumed by the engine: a `name` and a
`message` string (the `stack` field is never read by the engine or the
catalog predicates, so it is omitted from the embedding). -/
structure JsError where
  name : String
  message : String

/-- Record `ErrorContext`: caller-supplied hints, all fields optional. -/
structure ErrorContext where
  framework : Option String := none
  environment : Option String := none
  code : Option String := none
  line : Option Nat := none
  column : Option Nat := none

/-- Record `ErrorRule`, generic in the error type `ε` and the predicate result
type `m` (`Bool` for the pure model, `Except Unit Bool` for the fallible
models).  The source field `match` is a reserved word in Lean and is
called `matchPred` here; all other field names follow the source. -/
structure ErrorRuleG (ε m : Type) where
  id : String
  name : String
  category : Category
  matchPred : ε → m
  title : String
  explanation : String
  fixes : List String
  examples : List String := []
  severity : Option Severity := none
  frameworks : Option (List String) := none

/-- The rule type of the pure model: total boolean predicates over errors
with both `name` and `message` present. -/
abbrev ErrorRule := ErrorRuleG JsError Bool

/-- Record `RuleMatch`: the engine's candidate/output record, generic like
`ErrorRuleG`. -/
structure RuleMatchG (ε m : Type) where
  rule : ErrorRuleG ε m
  error : ε
  confidence : Nat

/-- Candidate record of the pure model. -/
abbrev RuleMatch := RuleMatchG JsError Bool

/-! ## The matching engine (`src/engine/rule-engine.ts`), pure model

The engine's state is its rule list `this.rules`; each method is
embedded as a function taking that list as its first argument. -/

/-- Model of `Math.min(a, b)` on confidences in hundredths. -/
def jsMin (a b : Nat) : Nat :=
  if a ≤ b then a else b

/-- Embeds `RuleEngine.calculateConfidence(rule, error, context?)`:

```js
let confidence = 0.5;
if (error.message.toLowerCase().includes(rule.title.toLowerCase())) confidence += 0.3;
if (context?.framework && rule.frameworks?.includes(context.framework)) confidence += 0.2;
if (error.name && rule.name.toLowerCase().includes(error.name.toLowerCase())) confidence += 0.1;
if (rule.severity === 'critical') confidence += 0.1;
if (rule.severity === 'high') confidence += 0.05;
return Math.min(confidence, 1.0);
```

JavaScript truthiness: `context?.framework` is truthy iff the context is
present, the field is set and the string is non-empty; `error.name` is
truthy iff non-empty.  `rule.frameworks?.includes(f)` is false when
`frameworks` is absent.  Defined generically over the rule's predicate
shape since the predicate is not consulted here. -/
def calculateConfidence (rule : ErrorRuleG ε m) (error : JsError)
    (context : Option ErrorContext) : Nat :=
  let c0 : Nat := 50
  let c1 := if jsIncludes (jsToLower error.message) (jsToLower rule.title)
    then c0 + 30 else c0
  let ctxFramework : Option String := match context with
    | some c => c.framework
    | none => none
  let c2 := match ctxFramework with
    | some f =>
      if f != "" && (match rule.frameworks with
          | some fs => fs.contains f
          | none => false)
      then c1 + 20 else c1
    | none => c1
  let c3 := if error.name != "" &&
      jsIncludes (jsToLower rule.name) (jsToLower error.name)
    then c2 + 10 else c2
  let c4 := if rule.severity = some Severity.critical then c3 + 10 else c3
  let c5 := if rule.severity = some Severity.high then c4 + 5 else c4
  jsMin c5 100

/-- The candidate list built by the loop in `RuleEngine.findMatch`: for
each rule of the rule set, in stored order, whose predicate returns
true, the record `{ rule, error, confidence }`. -/
def ruleMatches (rules : List ErrorRule) (error : JsError)
    (context : Option ErrorContext) : List RuleMatch :=
  rules.filterMap (fun rule =>
    if rule.matchPred error
    then some ⟨rule, error, calculateConfidence rule error context⟩
    else none)

/-- The boolean order modelling the comparator
`(a, b) => b.confidence - a.confidence`: `a` may come before `b` iff
`a`'s confidence is at least `b`'s (descending). -/
def confidenceLE (a b : RuleMatchG ε m) : Bool :=
  decide (b.confidence ≤ a.confidence)

/-- The tail of `RuleEngine.findMatch`, shared by every model: return
null when the candidate list is empty, otherwise stably sort it by
descending confidence and return its first element. -/
def sortHead (l : List (RuleMatchG ε m)) : Option (RuleMatchG ε m) :=
  if l.isEmpty then none
  else (l.mergeSort confidenceLE).head?

/-- Embeds `RuleEngine.findMatch(error, context?)`: build the candidate list,
return null when it is empty, otherwise stably sort it by descending
confidence and return the first element. -/
def findMatch (rules : List ErrorRule) (error : JsError)
    (context : Option ErrorContext) : Option RuleMatch :=
  sortHead (ruleMatches rules error context)

/-- Embeds `RuleEngine.addRules(rules)`: `this.rules.push(...rules)` — append
the new rules at the end of the stored rule list. -/
def addRules (rules newRules : List ErrorRule) : List ErrorRule :=
  rules ++ newRules

/-- Embeds `RuleEngine.getRulesByCategory(category)`: filter preserving order. -/
def getRulesByCategory (rules : List ErrorRule) (category : Category) :
    List ErrorRule :=
  rules.filter (fun rule => decide (rule.category = category))

/-- Embeds `RuleEngine.getRulesByFramework(framework)`: filter preserving order
(`rule.frameworks?.includes(framework)`). -/
def getRulesByFramework (rules : List ErrorRule) (framework : String) :
    List ErrorRule :=
  rules.filter (fun rule => match rule.frameworks with
    | some fs => fs.contains framework
    | none => false)

/-- The record returned by `RuleEngine.getStats()`.  The dynamic maps
`byCategory`, `bySeverity`, `byFramework` are modelled as tally
functions (absent key ↦ 0). -/
structure Stats where
  totalRules : Nat
  byCategory : Category → Nat
  bySeverity : Option Severity → Nat
  byFramework : String → Nat

/-- Embeds `RuleEngine.getStats()`: `totalRules` is the rule-list length; the
three tallies are built by the loop over the rules (a rule with several
frameworks contributes to each). -/
def getStats (rules : List ErrorRule) : Stats where
  totalRules := rules.length
  byCategory := rules.foldl
    (fun acc rule c => if c = rule.category then acc c + 1 else acc c)
    (fun _ => 0)
  bySeverity := rules.foldl
    (fun acc rule s => if s = rule.severity then acc s + 1 else acc s)
    (fun _ => 0)
  byFramework := rules.foldl
    (fun acc rule => match rule.frameworks with
      | some fs => fs.foldl (fun acc2 f s => if s = f then acc2 s + 1 else acc2 s) acc
      | none => acc)
    (fun _ => 0)


/-! ## The shipped rule catalog (`src/rules/core-rules.ts`)

All fourteen rules, with their predicates, metadata and severities,
transcribed in catalog order.  In the predicates, JavaScript `&&` binds
tighter than `||`, so `a || b && c` is `a || (b && c)`. -/

/-- Catalog `coreRules`: the static catalog the engine is constructed with. -/
def coreRules : List ErrorRule := [
  { id := "undefined-property"
    name := "Undefined Property Access"
    category := Category.javascript
    matchPred := fun error =>
      jsIncludes error.message "Cannot read properties of undefined" ||
      (jsIncludes error.message "Cannot access property" &&
        jsIncludes error.message "undefined")
    title := "Trying to use something that doesn\x27t exist"
    explanation := "You attempted to access a property on a variable that is undefined. This usually happens when data hasn\x27t loaded yet or a function returned undefined unexpectedly."
    fixes := [
      "Check if the variable exists before using it: if (variable) \x7b ... \x7d",
      "Use optional chaining: variable?.property instead of variable.property",
      "Provide a default value: variable || defaultValue",
      "Make sure API calls have finished before using the data"]
    examples := [
      "const user = undefined; console.log(user.name);",
      "const data = getData(); return data.map(item => item.id);"]
    severity := some Severity.high },
  { id := "null-property"
    name := "Null Property Access"
    category := Category.javascript
    matchPred := fun error =>
      jsIncludes error.message "Cannot read properties of null" ||
      (jsIncludes error.message "Cannot access property" &&
        jsIncludes error.message "null")
    title := "Trying to use something that is null"
    explanation := "You attempted to access a property on a variable that is null. This often happens when a function returns null or a property is explicitly set to null."
    fixes := [
      "Add null check: if (variable !== null) \x7b ... \x7d",
      "Use optional chaining: variable?.property",
      "Provide fallback: variable || defaultValue",
      "Check function return values"]
    examples := [
      "const user = null; console.log(user.name);",
      "document.getElementById(\x27missing\x27).textContent = \x27hello\x27;"]
    severity := some Severity.high },
  { id := "map-not-function"
    name := "Map Called on Non-Array"
    category := Category.javascript
    matchPred := fun error =>
      jsIncludes error.message "map is not a function" ||
      (jsIncludes error.message ".map" &&
        jsIncludes error.message "not a function")
    title := "Called map() on something that isn\x27t an array"
    explanation := "You tried to use the map() method on a value that isn\x27t an array. This commonly happens when APIs return objects instead of arrays, or when data is undefined/null."
    fixes := [
      "Verify it\x27s an array first: Array.isArray(variable)",
      "Convert to array: Array.from(variable) or [...variable]",
      "Use optional chaining: variable?.map(...)",
      "Check API response structure"]
    examples := [
      "const users = \x7b\x7d; users.map(u => u.name);",
      "const data = getData(); // returns object, not array"]
    severity := some Severity.high },
  { id := "not-defined"
    name := "Variable Not Defined"
    category := Category.javascript
    matchPred := fun error =>
      jsIncludes error.message "is not defined" ||
      error.name == "ReferenceError"
    title := "Using a variable that doesn\x27t exist"
    explanation := "You tried to use a variable that hasn\x27 been declared. This could be a typo, missing import, or using a variable before it\x27s defined."
    fixes := [
      "Check spelling of the variable name",
      "Import the variable/module: import \x7b name \x7d from \x27module\x27",
      "Declare the variable: const name = value",
      "Check if variable is in scope"]
    examples := [
      "console.log(usserName); // typo",
      "React.useState // missing import"]
    severity := some Severity.medium },
  { id := "json-parse-error"
    name := "JSON Parse Error"
    category := Category.json
    matchPred := fun error =>
      (jsIncludes error.message "Unexpected token" &&
        jsIncludes error.message "JSON") ||
      jsIncludes error.message "JSON.parse" ||
      jsIncludes error.message "not valid JSON"
    title := "Failed to parse JSON data"
    explanation := "The response you received isn\x27t valid JSON. This usually means the API returned HTML (like an error page) instead of JSON, or the JSON is malformed."
    fixes := [
      "Check response.status before parsing: if (response.ok) \x7b ... \x7d",
      "Log raw response first: console.log(await response.text())",
      "Verify API endpoint URL is correct",
      "Check if server is returning proper JSON headers"]
    examples := [
      "JSON.parse(\"<html>Error page</html>\")",
      "await response.json() // when response is HTML"]
    severity := some Severity.high },
  { id := "fetch-failed"
    name := "Network Request Failed"
    category := Category.network
    matchPred := fun error =>
      jsIncludes error.message "fetch failed" ||
      jsIncludes error.message "NetworkError" ||
      jsIncludes error.message "ECONNREFUSED"
    title := "Network request failed"
    explanation := "The network request couldn\x27t be completed. This could be due to no internet connection, wrong URL, server being down, or CORS issues."
    fixes := [
      "Check internet connection",
      "Verify the URL is correct",
      "Make sure the server is running",
      "Check if the URL is accessible in browser",
      "For CORS: ensure server allows your origin"]
    examples := [
      "fetch(\"http://localhost:3000/api\") // server not running",
      "fetch(\"https://wrong-url.com/api\")"]
    severity := some Severity.medium },
  { id := "await-outside-async"
    name := "Await Outside Async Function"
    category := Category.async
    matchPred := fun error =>
      jsIncludes error.message "await is only valid in async functions" ||
      jsIncludes error.message "await is only valid in async"
    title := "Used await outside an async function"
    explanation := "You can only use the await keyword inside functions marked with async. This ensures proper Promise handling."
    fixes := [
      "Add async keyword: async function myFunc() \x7b ... \x7d",
      "For arrow functions: const myFunc = async () => \x7b ... \x7d",
      "Use .then() instead of await if not in async function",
      "Wrap in async IIFE: (async () => \x7b await ... \x7d)()"]
    examples := [
      "function getData() \x7b await fetch(...); \x7d // missing async",
      "const data = await fetch(...); // top-level await not supported"]
    severity := some Severity.medium },
  { id := "promise-rejection"
    name := "Unhandled Promise Rejection"
    category := Category.async
    matchPred := fun error =>
      jsIncludes error.message "UnhandledPromiseRejectionWarning" ||
      error.name == "UnhandledPromiseRejection"
    title := "Promise rejected but not caught"
    explanation := "A Promise was rejected but there was no .catch() or try/catch to handle it. This can cause your app to crash."
    fixes := [
      "Add .catch() to the Promise: promise.catch(error => \x7b ... \x7d)",
      "Use try/catch with await: try \x7b await promise \x7d catch \x7b ... \x7d",
      "Use .then() with error handler: promise.then(data, error => \x7b ... \x7d)",
      "Add global error handler: process.on(\"unhandledRejection\", ...)"]
    examples := [
      "fetch(\"/api/data\") // no .catch()",
      "async function() \x7b throw new Error(\"oops\"); \x7d // not caught"]
    severity := some Severity.high },
  { id := "enoent"
    name := "File Not Found"
    category := Category.nodejs
    matchPred := fun error =>
      jsIncludes error.message "ENOENT" ||
      jsIncludes error.message "no such file or directory"
    title := "File or directory doesn\x27t exist"
    explanation := "You tried to access a file that doesn\x27t exist. This could be a wrong path, missing file, or incorrect working directory."
    fixes := [
      "Check if file path is correct: fs.existsSync(path)",
      "Use absolute paths: path.resolve(__dirname, \"file.txt\")",
      "Make sure file actually exists",
      "Check working directory: process.cwd()"]
    examples := [
      "fs.readFileSync(\"missing.txt\")",
      "require(\"./missing-module\")"]
    severity := some Severity.medium },
  { id := "eacces"
    name := "Permission Denied"
    category := Category.nodejs
    matchPred := fun error =>
      jsIncludes error.message "EACCES" ||
      jsIncludes error.message "permission denied"
    title := "Permission denied for file operation"
    explanation := "You don\x27t have permission to access or modify this file/directory. This is common when trying to write to protected locations."
    fixes := [
      "Check file permissions: ls -la file.txt",
      "Run with appropriate permissions: sudo (if needed)",
      "Write to user-writable directory",
      "Check if file is read-only"]
    examples := [
      "fs.writeFileSync(\"/etc/config.txt\", \"data\")",
      "fs.mkdirSync(\"/protected/folder\")"]
    severity := some Severity.medium },
  { id := "port-in-use"
    name := "Port Already in Use"
    category := Category.nodejs
    matchPred := fun error =>
      jsIncludes error.message "EADDRINUSE" ||
      jsIncludes error.message "port already in use" ||
      jsIncludes error.message "address already in use"
    title := "Port is already being used by another process"
    explanation := "Another application is already using this port. This commonly happens when you forget to stop a dev server before starting a new one."
    fixes := [
      "Kill the process using the port: kill -9 $(lsof -ti:3000)",
      "Use a different port: PORT=3001 npm start",
      "Find and close the application using the port",
      "Restart your computer if needed"]
    examples := [
      "app.listen(3000) // port 3000 already in use",
      "npm start // when previous server still running"]
    severity := some Severity.low },
  { id := "react-children"
    name := "Invalid React Child"
    category := Category.react
    matchPred := fun error =>
      jsIncludes error.message "Objects are not valid as a React child" ||
      jsIncludes error.message "Functions are not valid as a React child"
    title := "Trying to render an object as React child"
    explanation := "React can only render strings, numbers, and JSX elements. You\x27re trying to render an object or function directly."
    fixes := [
      "Render specific properties: \x7buser.name\x7d instead of \x7buser\x7d",
      "Convert to string: JSON.stringify(object)",
      "Use .map() for arrays: items.map(item => <div>\x7bitem\x7d</div>)",
      "Check what you\x27re trying to render"]
    examples := [
      "<div>\x7buserObject\x7d</div> // object",
      "<div>\x7bfunction\x7d</div> // function"]
    frameworks := some ["react"]
    severity := some Severity.high },
  { id := "react-too-many-renders"
    name := "Too Many React Re-renders"
    category := Category.react
    matchPred := fun error =>
      jsIncludes error.message "Too many re-renders" ||
      jsIncludes error.message "Maximum update depth exceeded"
    title := "Infinite re-render loop in React"
    explanation := "Your component is triggering state updates that cause it to re-render infinitely. This usually happens when you set state during render."
    fixes := [
      "Move state updates to useEffect: useEffect(() => setState(...), [])",
      "Add dependency array to useEffect",
      "Use event handlers instead of direct state setting",
      "Check for conditional rendering that triggers updates"]
    examples := [
      "function App() \x7b const [count, setCount] = useState(0); setCount(count + 1); return <div>\x7bcount\x7d</div>; \x7d",
      "useEffect(() => setCount(count + 1)) // missing dependency array"]
    frameworks := some ["react"]
    severity := some Severity.critical },
  { id := "react-hooks-rules"
    name := "React Hooks Rules Violation"
    category := Category.react
    matchPred := fun error =>
      jsIncludes error.message "Hooks can only be called inside" ||
      jsIncludes error.message "Invalid hook call"
    title := "React hook called outside component or in wrong order"
    explanation := "React hooks must be called at the top level of function components and in the same order every time."
    fixes := [
      "Only call hooks at the top level of functions",
      "Don\x27t call hooks inside loops, conditions, or nested functions",
      "Move hooks outside if statements and loops",
      "Ensure you\x27re in a React function component"]
    examples := [
      "if (condition) \x7b useState(0); \x7d // hook inside condition",
      "function regularFunction() \x7b useEffect(() => \x7b\x7d); \x7d // hook outside component"]
    frameworks := some ["react"]
    severity := some Severity.high }]

/-! ## Specification-side scoring formulas (for the refinement claim C2)

These two definitions follow the wording of the scoring claim, to be
compared with `calculateConfidence`, which is transcribed from the
source. -/

/-- The scoring algorithm exactly as the claim words it: base 0.5, +0.3
for a case-insensitive title substring, +0.2 if `context.framework` is
set and is a member of the rule's frameworks set, +0.1 if the error's
name is non-empty and the rule's name case-insensitively contains it,
+0.1 for critical severity or +0.05 for high severity, total clamped to
at most 1.0. -/
def confidenceClaimC2 (rule : ErrorRuleG ε m) (error : JsError)
    (context : Option ErrorContext) : Nat :=
  let titleBonus : Nat :=
    if jsIncludes (jsToLower error.message) (jsToLower rule.title) then 30 else 0
  let frameworkBonus : Nat := match context with
    | some c => match c.framework with
      | some f =>
        if (match rule.frameworks with
            | some fs => fs.contains f
            | none => false)
        then 20 else 0
      | none => 0
    | none => 0
  let nameBonus : Nat :=
    if error.name != "" && jsIncludes (jsToLower rule.name) (jsToLower error.name)
    then 10 else 0
  let severityBonus : Nat :=
    if rule.severity = some Severity.critical then 10
    else if rule.severity = some Severity.high then 5
    else 0
  jsMin (50 + titleBonus + frameworkBonus + nameBonus + severityBonus) 100

/-- The claim's scoring formula amended at the one point the code
disagrees with it: the framework bonus additionally requires the set
framework string to be non-empty (JavaScript truthiness of
`context?.framework`). -/
def confidenceAmendedC2 (rule : ErrorRuleG ε m) (error : JsError)
    (context : Option ErrorContext) : Nat :=
  let titleBonus : Nat :=
    if jsIncludes (jsToLower error.message) (jsToLower rule.title) then 30 else 0
  let frameworkBonus : Nat := match context with
    | some c => match c.framework with
      | some f =>
        if f != "" && (match rule.frameworks with
            | some fs => fs.contains f
            | none => false)
        then 20 else 0
      | none => 0
    | none => 0
  let nameBonus : Nat :=
    if error.name != "" && jsIncludes (jsToLower rule.name) (jsToLower error.name)
    then 10 else 0
  let severityBonus : Nat :=
    if rule.severity = some Severity.critical then 10
    else if rule.severity = some Severity.high then 5
    else 0
  jsMin (50 + titleBonus + frameworkBonus + nameBonus + severityBonus) 100

/-! ## Fallible-predicate model (claim C4)

In JavaScript a rule predicate may throw; `findMatch` evaluates
`rule.match(error)` with no try/catch around it, so a throw propagates
out of the loop.  Predicates here return `Except Unit Bool` (`.error ()`
models a throw) and the loop of `findMatch` is re-embedded in the
`Except` monad with the same structure as the pure model. -/

/-- Rule with a fallible predicate. -/
abbrev ErrorRuleE := ErrorRuleG JsError (Except Unit Bool)

/-- Candidate record of the fallible model. -/
abbrev RuleMatchE := RuleMatchG JsError (Except Unit Bool)

/-- The candidate-collecting loop of `RuleEngine.findMatch` with
fallible predicates: evaluate each predicate in stored order; a throw
propagates immediately (no surrounding try/catch in the source), a
matching rule contributes its candidate record. -/
def collectMatchesE (rules : List ErrorRuleE) (error : JsError)
    (context : Option ErrorContext) : Except Unit (List RuleMatchE) :=
  match rules with
  | [] => Except.ok []
  | rule :: rest =>
    match rule.matchPred error with
    | Except.error e => Except.error e
    | Except.ok b =>
      if b then
        let confidence := calculateConfidence rule error context
        match collectMatchesE rest error context with
        | Except.error e => Except.error e
        | Except.ok tail => Except.ok (⟨rule, error, confidence⟩ :: tail)
      else
        collectMatchesE rest error context

/-- Embeds `RuleEngine.findMatch` with fallible predicates: collect candidates
(propagating any predicate throw), then sort and take the head as in the
pure model. -/
def findMatchE (rules : List ErrorRuleE) (error : JsError)
    (context : Option ErrorContext) : Except Unit (Option RuleMatchE) :=
  match collectMatchesE rules error context with
  | Except.error e => Except.error e
  | Except.ok ms => Except.ok (sortHead ms)

/-- Modelled from the spec: the candidate-collecting loop as claim C4
describes it — "a fault during evaluation of rule i is treated as rule i
did not match and evaluation continues with rule i+1".  This isolating
behaviour is absent from the source; the definition exists to be
compared with `collectMatchesE`. -/
def collectMatchesIsolated (rules : List ErrorRuleE) (error : JsError)
    (context : Option ErrorContext) : List RuleMatchE :=
  match rules with
  | [] => []
  | rule :: rest =>
    match rule.matchPred error with
    | Except.ok true =>
      ⟨rule, error, calculateConfidence rule error context⟩ ::
        collectMatchesIsolated rest error context
    | Except.ok false => collectMatchesIsolated rest error context
    | Except.error _ => collectMatchesIsolated rest error context

/-- Modelled from the spec: `find-best-match` as claim C4 describes it —
never propagates a predicate fault, returns the best match among the
non-faulting rules. -/
def findMatchIsolated (rules : List ErrorRuleE) (error : JsError)
    (context : Option ErrorContext) : Option RuleMatchE :=
  sortHead (collectMatchesIsolated rules error context)

/-! ## Optional-message model (claim C5)

An "error-like input whose `message` field is missing" is modelled by
`JsErrorU` with an optional message.  Every shipped predicate and
`calculateConfidence` itself dereference `error.message` (e.g.
`error.message.includes(...)`, `error.message.toLowerCase()`) before
anything else, which in JavaScript throws a TypeError when `message` is
`undefined`; `getMessage` models that dereference. -/

/-- Error-like value whose `message` may be missing. -/
structure JsErrorU where
  name : String
  message : Option String

/-- Rule over optional-message errors with a fallible predicate. -/
abbrev ErrorRuleU := ErrorRuleG JsErrorU (Except Unit Bool)

/-- Candidate record of the optional-message model. -/
abbrev RuleMatchU := RuleMatchG JsErrorU (Except Unit Bool)

/-- Dereferencing `error.message`: throws (models the TypeError from
`undefined.includes` / `undefined.toLowerCase`) iff the field is
missing. -/
def getMessage (error : JsErrorU) : Except Unit String :=
  match error.message with
  | some s => Except.ok s
  | none => Except.error ()

/-- Lift a shipped catalog rule to optional-message errors.  Each core
predicate reads `error.message` first (every disjunct starts with
`error.message.includes(...)`), so the lifted predicate throws exactly
when the message is missing and otherwise agrees with the pure
predicate. -/
def liftRule (rule : ErrorRule) : ErrorRuleU :=
  { id := rule.id
    name := rule.name
    category := rule.category
    matchPred := fun error =>
      match getMessage error with
      | Except.error e => Except.error e
      | Except.ok msg => Except.ok (rule.matchPred ⟨error.name, msg⟩)
    title := rule.title
    explanation := rule.explanation
    fixes := rule.fixes
    examples := rule.examples
    severity := rule.severity
    frameworks := rule.frameworks }

/-- The shipped catalog over optional-message errors. -/
def coreRulesU : List ErrorRuleU := coreRules.map liftRule

/-- Embeds `calculateConfidence` over optional-message errors: the first line
`error.message.toLowerCase()` throws when the message is missing. -/
def calculateConfidenceU (rule : ErrorRuleU) (error : JsErrorU)
    (context : Option ErrorContext) : Except Unit Nat :=
  match getMessage error with
  | Except.error e => Except.error e
  | Except.ok msg => Except.ok (calculateConfidence rule ⟨error.name, msg⟩ context)

/-- The candidate-collecting loop of `RuleEngine.findMatch` over
optional-message errors: predicate evaluation and confidence scoring may
both throw, and a throw propagates immediately. -/
def collectMatchesU (rules : List ErrorRuleU) (error : JsErrorU)
    (context : Option ErrorContext) : Except Unit (List RuleMatchU) :=
  match rules with
  | [] => Except.ok []
  | rule :: rest =>
    match rule.matchPred error with
    | Except.error e => Except.error e
    | Except.ok b =>
      if b then
        match calculateConfidenceU rule error context with
        | Except.error e => Except.error e
        | Except.ok confidence =>
          match collectMatchesU rest error context with
          | Except.error e => Except.error e
          | Except.ok tail => Except.ok (⟨rule, error, confidence⟩ :: tail)
      else
        collectMatchesU rest error context

/-- Embeds `RuleEngine.findMatch` over optional-message errors. -/
def findMatchU (rules : List ErrorRuleU) (error : JsErrorU)
    (context : Option ErrorContext) : Except Unit (Option RuleMatchU) :=
  match collectMatchesU rules error context with
  | Except.error e => Except.error e
  | Except.ok ms => Except.ok (sortHead ms)

/-! ## The legacy helper (`src/core/index.ts`, claim C10) -/

/-- Record `ErrorExplanation` (`src/types/index.ts`). -/
structure ErrorExplanation where
  message : String
  reason : String
  fix : String
  suggestions : Option (List String) := none

/-- Record `PrettyTryResult<T>` (`src/types/index.ts`). -/
structure PrettyTryResult (T : Type) where
  success : Bool
  data : Option T := none
  error : Option ErrorExplanation := none

/-- A value of the legacy `errorMappings` table: an explanation without
its `message` field. -/
structure ExplanationParts where
  reason : String
  fix : String
  suggestions : List String

/-- The legacy `errorMappings` lookup table, in declaration order (the
order `Object.entries` yields for these string keys). -/
def errorMappings : List (String × ExplanationParts) := [
  ("Cannot read properties of undefined",
    { reason := "You tried to use something before it existed."
      fix := "Check if the value exists first using optional chaining (?.) or if statements."
      suggestions := [
        "Try: value?.property instead of value.property",
        "Add: if (value) \x7b /* your code */ \x7d",
        "Initialize the variable before using it"] }),
  ("Cannot read properties of null",
    { reason := "You tried to access properties on a null value."
      fix := "Check if the value is null before accessing its properties."
      suggestions := [
        "Use optional chaining: value?.property",
        "Add null check: if (value !== null)",
        "Provide a default value: value || defaultValue"] }),
  ("map is not a function",
    { reason := "You tried to call map() on something that isn\x27t an array."
      fix := "Make sure you\x27re calling map() on an actual array."
      suggestions := [
        "Check if the value is an array: Array.isArray(value)",
        "Convert to array first: Array.from(value)",
        "Use optional chaining: value?.map(...)"] }),
  ("Unexpected token",
    { reason := "Failed to parse JSON - the response isn\x27t valid JSON."
      fix := "The API probably returned HTML or an error message instead of JSON."
      suggestions := [
        "Check response.status before parsing",
        "Log the raw response: console.log(await response.text())",
        "Verify the API endpoint is correct"] }),
  ("Failed to fetch",
    { reason := "Network request failed - can\x27t reach the server."
      fix := "Check your internet connection and the API URL."
      suggestions := [
        "Verify the URL is correct",
        "Check if the server is running",
        "Try accessing the URL in your browser"] }),
  ("await is only valid in async functions",
    { reason := "You used await outside of an async function."
      fix := "Add the async keyword to your function declaration."
      suggestions := [
        "Change: function myFunc() to async function myFunc()",
        "For arrow functions: () => \x7b\x7d to async () => \x7b\x7d",
        "Use .then() instead of await if not in async function"] }),
  ("module not found",
    { reason := "The module you\x27re trying to import doesn\x27t exist."
      fix := "Install the missing package or check the import path."
      suggestions := [
        "Run: npm install package-name",
        "Check spelling in the import statement",
        "Verify the file path is correct"] })]

/-- Embeds `getErrorExplanation(error)`: exact key lookup first, then the first
key (in declaration order) contained in the message, then a generic
fallback; the returned `message` is always the error's message. -/
def getErrorExplanation (error : JsError) : ErrorExplanation :=
  let errorMessage := error.message
  match errorMappings.find? (fun kv => kv.1 == errorMessage) with
  | some kv =>
    { message := errorMessage, reason := kv.2.reason, fix := kv.2.fix,
      suggestions := some kv.2.suggestions }
  | none =>
    match errorMappings.find? (fun kv => jsIncludes errorMessage kv.1) with
    | some kv =>
      { message := errorMessage, reason := kv.2.reason, fix := kv.2.fix,
        suggestions := some kv.2.suggestions }
    | none =>
      { message := errorMessage
        reason := "Something went wrong, but this error type isn\x27t mapped yet."
        fix := "Check the error message and try to understand what went wrong."
        suggestions := some [
          "Look at the line number in the error",
          "Check your variable values",
          "Search online for this specific error"] }

/-- A JavaScript thrown value as `prettyTry` discriminates it: either an
`Error` instance, or any other value represented here by its
`String(value)` conversion. -/
inductive JsThrown where
  | err (e : JsError)
  | other (s : String)

/-- Embeds `prettyTry(fn)`: the call of `fn` either returns a value or throws,
modelled by its `Except JsThrown T` outcome.  The try/catch makes the
function total: a returned value yields a success record, a thrown
`Error` is explained through `getErrorExplanation`, any other thrown
value gets the generic unknown-error explanation built on
`String(error)`. -/
def prettyTry (fn : Except JsThrown T) : PrettyTryResult T :=
  match fn with
  | Except.ok result => { success := true, data := some result }
  | Except.error (JsThrown.err e) =>
    { success := false, error := some (getErrorExplanation e) }
  | Except.error (JsThrown.other s) =>
    { success := false
      error := some
        { message := s
          reason := "An unknown error occurred."
          fix := "Check your code for potential issues."
          suggestions := some ["Add proper error handling", "Validate your inputs"] } }

/-! ## Concrete inputs used by witnesses and counterexamples -/

/-- A minimal always-matching rule whose title occurs in the message of
`wError`. -/
def wRule : ErrorRule :=
  { id := "w", name := "W", category := Category.javascript,
    matchPred := fun _ => true, title := "boom",
    explanation := "", fixes := [] }

/-- Error whose message contains the title of `wRule`. -/
def wError : JsError := ⟨"", "boom"⟩

/-- The candidate that `findMatch [wRule] wError none` produces
(its confidence evaluates to 80: 50 base + 30 title bonus). -/
def wMatch : RuleMatch := ⟨wRule, wError, calculateConfidence wRule wError none⟩

/-- Rule whose frameworks set contains the empty string (claim C2). -/
def c2rule : ErrorRule :=
  { id := "c2", name := "R", category := Category.javascript,
    matchPred := fun _ => true, title := "zzz",
    explanation := "", fixes := [], frameworks := some [""] }

/-- Error meeting no bonus condition (claim C2). -/
def c2error : JsError := ⟨"", "boom"⟩

/-- Context whose framework is set, but set to the empty string
(claim C2). -/
def c2context : ErrorContext := { framework := some "" }

/-- The error of the C6 scenario. -/
def c6error : JsError :=
  ⟨"TypeError", "Cannot read properties of undefined (reading \x27map\x27)"⟩

/-- A rule matching nothing (claim C8 witness). -/
def w8old : ErrorRule :=
  { id := "w8-old", name := "Old", category := Category.javascript,
    matchPred := fun _ => false, title := "old", explanation := "", fixes := [] }

/-- A rule matching everything (claim C8 witness). -/
def w8new : ErrorRule :=
  { id := "w8-new", name := "New", category := Category.nodejs,
    matchPred := fun _ => true, title := "new", explanation := "", fixes := [] }

/-- Error for the C8 witness. -/
def w8error : JsError := ⟨"", "anything"⟩

/-- A rule whose predicate throws (claim C4). -/
def c4faultRule : ErrorRuleE :=
  { id := "c4-fault", name := "Fault", category := Category.javascript,
    matchPred := fun _ => Except.error (), title := "fault",
    explanation := "", fixes := [] }

/-- A rule whose predicate matches without throwing (claim C4). -/
def c4okRule : ErrorRuleE :=
  { id := "c4-ok", name := "OK", category := Category.javascript,
    matchPred := fun _ => Except.ok true, title := "ok",
    explanation := "", fixes := [] }

/-- Error for the C4 scenarios. -/
def c4error : JsError := ⟨"", "boom"⟩

/-- Error-like value with a missing message (claim C5). -/
def c5error : JsErrorU := ⟨"TypeError", none⟩

/-! ## Helper lemmas about the sort-and-take-head step -/

theorem confidenceLE_trans {ε μ : Type} (a b c : RuleMatchG ε μ) :
    confidenceLE a b → confidenceLE b c → confidenceLE a c := by
  simp only [confidenceLE, decide_eq_true_eq]
  exact fun h1 h2 => le_trans h2 h1

theorem confidenceLE_total {ε μ : Type} (a b : RuleMatchG ε μ) :
    confidenceLE a b || confidenceLE b a := by
  simp only [confidenceLE, Bool.or_eq_true, decide_eq_true_eq]
  exact le_total b.confidence a.confidence

theorem sortHead_eq_none_iff {ε μ : Type} (l : List (RuleMatchG ε μ)) :
    sortHead l = none ↔ l = [] := by
  unfold sortHead
  constructor
  · intro h
    by_cases he : l.isEmpty
    · exact List.isEmpty_iff.mp he
    · simp only [he, if_neg, Bool.false_eq_true, not_false_iff, ite_false] at h
      rcases List.head?_eq_none_iff.mp h with hnil
      have : l = [] := by
        have hlm : (l.mergeSort confidenceLE).length = l.length :=
          List.length_mergeSort l
        rw [hnil] at hlm
        exact List.length_eq_zero.mp hlm.symm
      simp [this] at he
  · intro h
    subst h
    simp

theorem sortHead_singleton {ε μ : Type} (x : RuleMatchG ε μ) :
    sortHead [x] = some x := by
  simp [sortHead]

/-- The element `sortHead` returns is a first maximum of the input list:
it occurs in the list, everything strictly before that occurrence has
strictly smaller confidence, and nothing in the list has larger
confidence.  This is exactly the ECMAScript stable-sort guarantee for
the head of the sorted array, proved via `List.mergeSort_enum`
(index-tagged sorting). -/
theorem sortHead_spec {ε μ : Type} {l : List (RuleMatchG ε μ)} {w : RuleMatchG ε μ}
    (h : sortHead l = some w) :
    ∃ l₁ l₂, l = l₁ ++ w :: l₂ ∧ (∀ x ∈ l₁, x.confidence < w.confidence) ∧
      ∀ x ∈ l, x.confidence ≤ w.confidence := by
  unfold sortHead at h
  by_cases he : l.isEmpty
  · simp [he] at h
  · simp only [he, Bool.false_eq_true, not_false_iff, ite_false] at h
    -- the sorted list starts with `w`
    rcases List.head?_eq_some_iff.mp h with ⟨rest, hms⟩
    -- transfer to the index-tagged sort
    have henum : (l.enum.mergeSort (List.enumLE confidenceLE)).map (·.2) = w :: rest := by
      rw [List.mergeSort_enum, hms]
    rcases List.map_eq_cons_iff.mp henum with ⟨p, s', hs, hp2, hrest⟩
    obtain ⟨i, m⟩ := p
    simp only at hp2
    subst hp2
    -- sortedness and permutation facts for the tagged sort
    have hsorted : (l.enum.mergeSort (List.enumLE confidenceLE)).Pairwise
        (fun a b => List.enumLE confidenceLE a b = true) :=
      List.sorted_mergeSort
        (List.enumLE_trans (fun a b c => confidenceLE_trans a b c))
        (List.enumLE_total (fun a b => confidenceLE_total a b)) l.enum
    rw [hs] at hsorted
    have hhead : ∀ q ∈ s', List.enumLE confidenceLE (i, m) q = true :=
      (List.pairwise_cons.mp hsorted).1
    have hperm : List.Perm (l.enum.mergeSort (List.enumLE confidenceLE)) l.enum :=
      List.mergeSort_perm l.enum _
    rw [hs] at hperm
    -- every tagged element of `l` is the head or dominated by it
    have hall : ∀ j (x : RuleMatchG ε μ), (j, x) ∈ l.enum →
        (j = i ∧ x = m) ∨ (x.confidence ≤ m.confidence ∧
          (m.confidence ≤ x.confidence → i ≤ j)) := by
      intro j x hjx
      have : (j, x) ∈ (i, m) :: s' := hperm.mem_iff.mpr hjx
      rcases List.mem_cons.mp this with heq | hmem
      · left
        exact ⟨congrArg Prod.fst heq, congrArg Prod.snd heq⟩
      · right
        have := hhead _ hmem
        simp only [List.enumLE] at this
        by_cases h1 : confidenceLE m x
        · by_cases h2 : confidenceLE x m
          · simp only [h1, h2, if_true] at this
            simp only [confidenceLE, decide_eq_true_eq] at h1 h2
            exact ⟨h1, fun _ => by simpa using this⟩
          · simp only [confidenceLE, decide_eq_true_eq] at h1 h2
            exact ⟨h1, fun hc => absurd hc h2⟩
        · simp only [h1, if_false] at this
          simp at this
    -- locate the head occurrence inside `l`
    have hiw : (i, m) ∈ l.enum := hperm.subset (List.mem_cons_self _ _)
    have hgl : l[i]? = some m := by
      have := List.mk_mem_enum_iff_getElem?.mp hiw
      simpa using this
    have hilen : i < l.length := (List.getElem?_eq_some_iff.mp hgl).1
    have hget : l[i] = m := by
      rcases List.getElem?_eq_some_iff.mp hgl with ⟨h', hv⟩
      exact hv
    refine ⟨l.take i, l.drop (i + 1), ?_, ?_, ?_⟩
    · rw [← hget, ← List.drop_eq_getElem_cons hilen, List.take_append_drop]
    · intro x hx
      rcases List.mem_take_iff_getElem.mp hx with ⟨j, hj, hxj⟩
      have hji : j < i := lt_of_lt_of_le hj (min_le_left _ _)
      have hjlen : j < l.length := lt_of_lt_of_le hj (min_le_right _ _)
      have hmem : (j, x) ∈ l.enum := by
        apply List.mk_mem_enum_iff_getElem?.mpr
        simp [List.getElem?_eq_some_iff]
        exact ⟨hjlen, hxj⟩
      rcases hall j x hmem with ⟨hji', _⟩ | ⟨hle, himp⟩
      · omega
      · by_contra hnot
        push_neg at hnot
        have : m.confidence ≤ x.confidence := hnot
        have := himp this
        omega
    · intro x hx
      rcases List.mem_iff_getElem.mp hx with ⟨j, hjlen, hxj⟩
      have hmem : (j, x) ∈ l.enum := by
        apply List.mk_mem_enum_iff_getElem?.mpr
        simp [List.getElem?_eq_some_iff]
        exact ⟨hjlen, hxj⟩
      rcases hall j x hmem with ⟨_, hxw⟩ | ⟨hle, _⟩
      · exact le_of_eq (congrArg RuleMatchG.confidence hxw)
      · exact hle

/-- The match returned by `sortHead` is one of the candidates. -/
theorem sortHead_mem {ε μ : Type} {l : List (RuleMatchG ε μ)} {w : RuleMatchG ε μ}
    (h : sortHead l = some w) : w ∈ l := by
  rcases sortHead_spec h with ⟨l₁, l₂, hdec, _, _⟩
  rw [hdec]
  exact List.mem_append.mpr (Or.inr (List.mem_cons_self _ _))

/-! ## Helper lemmas about candidates and scoring -/

/-- Membership in the candidate list: every candidate comes from a rule
of the set whose predicate returned true, with its computed
confidence. -/
theorem mem_ruleMatches {rules : List ErrorRule} {error : JsError}
    {context : Option ErrorContext} {x : RuleMatch}
    (hx : x ∈ ruleMatches rules error context) :
    ∃ r, r ∈ rules ∧ r.matchPred error = true ∧
      x = ⟨r, error, calculateConfidence r error context⟩ := by
  rcases List.mem_filterMap.mp hx with ⟨r, hr, hsome⟩
  by_cases hb : r.matchPred error
  · rw [if_pos hb] at hsome
    injection hsome with h
    exact ⟨r, hr, hb, h.symm⟩
  · rw [if_neg hb] at hsome
    cases hsome

/-- The candidate list is empty iff no rule's predicate returns true. -/
theorem ruleMatches_eq_nil_iff {rules : List ErrorRule} {error : JsError}
    {context : Option ErrorContext} :
    ruleMatches rules error context = [] ↔
      ∀ r ∈ rules, r.matchPred error = false := by
  unfold ruleMatches
  rw [List.filterMap_eq_nil_iff]
  constructor
  · intro h r hr
    have := h r hr
    by_cases hb : r.matchPred error
    · rw [if_pos hb] at this
      cases this
    · simpa using hb
  · intro h r hr
    rw [h r hr]
    simp

set_option maxHeartbeats 1000000 in
/-- The computed confidence always lies in the closed interval [0, 1]
(in fact in [1/2, 1]). -/
theorem calculateConfidence_bounds {ε μ : Type} (rule : ErrorRuleG ε μ)
    (error : JsError) (context : Option ErrorContext) :
    0 ≤ calculateConfidence rule error context ∧
      calculateConfidence rule error context ≤ 100 := by
  unfold calculateConfidence jsMin
  rcases context with _ | c <;> dsimp only
  · constructor <;> split_ifs <;> omega
  · rcases hf : c.framework with _ | f <;> simp only [hf] <;>
      constructor <;> split_ifs <;> omega

/-- Adding a bonus under a condition, written as the source writes it,
equals adding the conditional bonus. -/
theorem add_if (p : Prop) [Decidable p] (x y : Nat) :
    (if p then x + y else x) = x + (if p then y else 0) := by
  split_ifs <;> simp

/-- The two severity additions of the source collapse to the claim's
single two-tier bonus, because a rule's severity cannot be both critical
and high. -/
theorem sev_bonus (s : Option Severity) :
    (if s = some Severity.critical then (10 : Nat) else 0) +
      (if s = some Severity.high then (5 : Nat) else 0) =
    (if s = some Severity.critical then (10 : Nat)
     else if s = some Severity.high then 5 else 0) := by
  rcases s with _ | sv
  · simp
  · rcases sv <;> simp

/-! ## The claims -/

/-- C2 (corrected): the claim's scoring formula awards the +0.2
framework bonus whenever `context.framework` is set and is a member of
the rule's frameworks set, but the code (`context?.framework && ...`)
additionally requires the set string to be truthy, i.e. non-empty.  At
`c2rule` / `c2error` / `c2context` (framework set to `""`, `""` a member
of the rule's frameworks) the code computes 0.5 (= 50 hundredths) while
the claim's formula computes 0.7 (= 70 hundredths). -/
theorem C2_counterexample :
    calculateConfidence c2rule c2error (some c2context) = 50 ∧
    confidenceClaimC2 c2rule c2error (some c2context) = 70 ∧
    (50 : Nat) ≠ 70 := by
  refine ⟨by decide, by decide, by decide⟩

/-- C2 (amended claim, proved): for every rule, error and optional
context, the computed confidence equals 0.5, plus 0.3 for the
case-insensitive title-substring bonus, plus 0.2 if `context.framework`
is set to a non-empty string that is a member of the rule's frameworks
set, plus 0.1 for the name bonus, plus 0.1 for critical severity or 0.05
for high severity (never both), clamped to at most 1.0. -/
theorem C2_scoring_formula {ε μ : Type} (rule : ErrorRuleG ε μ)
    (error : JsError) (context : Option ErrorContext) :
    calculateConfidence rule error context =
      confidenceAmendedC2 rule error context := by
  unfold calculateConfidence confidenceAmendedC2
  rcases context with _ | c <;> dsimp only
  · simp only [add_if, add_zero]
    congr 1
    rw [add_assoc, sev_bonus]
  · rcases hf : c.framework with _ | f <;> simp only [hf] <;>
      simp only [add_if, add_zero] <;> congr 1 <;> rw [add_assoc, sev_bonus]

/-- C3: whenever `find-best-match` returns a match, its confidence lies
in the closed interval [0.0, 1.0] — in hundredths, [0, 100]. -/
theorem C3_confidence_in_range (rules : List ErrorRule) (error : JsError)
    (context : Option ErrorContext) (m : RuleMatch)
    (h : findMatch rules error context = some m) :
    0 ≤ m.confidence ∧ m.confidence ≤ 100 := by
  have hmem : m ∈ ruleMatches rules error context := sortHead_mem h
  rcases mem_ruleMatches hmem with ⟨r, _, _, hx⟩
  rw [hx]
  exact calculateConfidence_bounds r error context

/-- Witness for C3: at the one-rule set `[wRule]` and error `wError`,
`find-best-match` returns a match and its confidence is in range. -/
theorem C3_witness : 0 ≤ wMatch.confidence ∧ wMatch.confidence ≤ 100 :=
  C3_confidence_in_range [wRule] wError none wMatch (by
    show sortHead (ruleMatches [wRule] wError none) = some wMatch
    rw [show ruleMatches [wRule] wError none = [wMatch] from rfl]
    exact sortHead_singleton wMatch)

/-- C1: `find-best-match` returns null exactly when no rule's predicate
returns true; otherwise it returns a candidate whose confidence is
maximal among all candidates, and which is the earliest such candidate —
everything strictly before it in the candidate list (which lists
matching rules in the rule set's stored order) has strictly smaller
confidence. -/
theorem C1_best_match (rules : List ErrorRule) (error : JsError)
    (context : Option ErrorContext) :
    (findMatch rules error context = none ↔
      ∀ r ∈ rules, r.matchPred error = false) ∧
    ∀ m, findMatch rules error context = some m →
      ∃ l₁ l₂, ruleMatches rules error context = l₁ ++ m :: l₂ ∧
        (∀ x ∈ l₁, x.confidence < m.confidence) ∧
        ∀ x ∈ ruleMatches rules error context, x.confidence ≤ m.confidence := by
  constructor
  · rw [show findMatch rules error context
        = sortHead (ruleMatches rules error context) from rfl,
      sortHead_eq_none_iff]
    exact ruleMatches_eq_nil_iff
  · intro m hm
    exact sortHead_spec hm

/-- Witness for C1: at the one-rule set `[wRule]` and error `wError`,
the returned match decomposes the candidate list as required. -/
theorem C1_witness :
    ∃ l₁ l₂, ruleMatches [wRule] wError none = l₁ ++ wMatch :: l₂ ∧
      (∀ x ∈ l₁, x.confidence < wMatch.confidence) ∧
      ∀ x ∈ ruleMatches [wRule] wError none,
        x.confidence ≤ wMatch.confidence :=
  (C1_best_match [wRule] wError none).2 wMatch (by
    show sortHead (ruleMatches [wRule] wError none) = some wMatch
    rw [show ruleMatches [wRule] wError none = [wMatch] from rfl]
    exact sortHead_singleton wMatch)

/-- C7: the candidate rule list (including its order) computed inside
`find-best-match` is the same under any two contexts — context only
influences confidence values — and consequently whether a match is found
at all is context-independent. -/
theorem C7_context_noninterference (rules : List ErrorRule) (error : JsError)
    (context₁ context₂ : Option ErrorContext) :
    (ruleMatches rules error context₁).map (fun m => m.rule) =
      (ruleMatches rules error context₂).map (fun m => m.rule) ∧
    (findMatch rules error context₁).isSome =
      (findMatch rules error context₂).isSome := by
  constructor
  · induction rules with
    | nil => rfl
    | cons r rs ih =>
      simp only [ruleMatches, List.filterMap_cons] at *
      by_cases hb : r.matchPred error <;> simp [hb, ih]
  · by_cases hnil : ruleMatches rules error context₁ = []
    · have hnil2 : ruleMatches rules error context₂ = [] := by
        rw [ruleMatches_eq_nil_iff] at hnil ⊢
        exact hnil
      have e1 : findMatch rules error context₁ = none :=
        (sortHead_eq_none_iff _).mpr hnil
      have e2 : findMatch rules error context₂ = none :=
        (sortHead_eq_none_iff _).mpr hnil2
      rw [e1, e2]
    · have hnil2 : ruleMatches rules error context₂ ≠ [] := by
        intro h
        exact hnil (ruleMatches_eq_nil_iff.mpr (ruleMatches_eq_nil_iff.mp h))
      have e1 : findMatch rules error context₁ ≠ none := by
        intro h
        exact hnil ((sortHead_eq_none_iff _).mp h)
      have e2 : findMatch rules error context₂ ≠ none := by
        intro h
        exact hnil2 ((sortHead_eq_none_iff _).mp h)
      rw [Option.isSome_iff_ne_none.mpr e1, Option.isSome_iff_ne_none.mpr e2]

/-- C8: `append-rules` puts the given rules at the end of the rule set,
leaving the existing rules and their order unchanged, and a subsequent
`find-best-match` sees them: for an error matched only by one of the
newly appended rules, the returned match references that rule. -/
theorem C8_append_rules (old new : List ErrorRule) (error : JsError)
    (context : Option ErrorContext) (r : ErrorRule) (hr : r ∈ new)
    (hold : ∀ q ∈ old, q.matchPred error = false)
    (huniq : ∀ q ∈ new, q.matchPred error = true → q = r)
    (hmatch : r.matchPred error = true) :
    addRules old new = old ++ new ∧
    ∃ m, findMatch (addRules old new) error context = some m ∧ m.rule = r := by
  refine ⟨rfl, ?_⟩
  have hall : ∀ x ∈ ruleMatches (old ++ new) error context, x.rule = r := by
    intro x hx
    rcases mem_ruleMatches hx with ⟨q, hq, hb, hxq⟩
    rcases List.mem_append.mp hq with hqo | hqn
    · rw [hold q hqo] at hb
      cases hb
    · have hqr := huniq q hqn hb
      rw [hxq, hqr]
  have hne : ruleMatches (old ++ new) error context ≠ [] := by
    intro hnil0
    have := ruleMatches_eq_nil_iff.mp hnil0 r (List.mem_append.mpr (Or.inr hr))
    rw [hmatch] at this
    cases this
  rcases ho : findMatch (addRules old new) error context with _ | m
  · exact absurd ((sortHead_eq_none_iff _).mp ho) hne
  · exact ⟨m, rfl, hall m (sortHead_mem ho)⟩

/-- Witness for C8: appending the always-matching `w8new` to the
never-matching `[w8old]` and matching `w8error` returns a match whose
rule is `w8new`. -/
theorem C8_witness :
    addRules [w8old] [w8new] = [w8old] ++ [w8new] ∧
    ∃ m, findMatch (addRules [w8old] [w8new]) w8error none = some m ∧
      m.rule = w8new :=
  C8_append_rules [w8old] [w8new] w8error none w8new
    (List.mem_singleton.mpr rfl)
    (by
      intro q hq
      rw [List.mem_singleton.mp hq]
      rfl)
    (by
      intro q hq _
      exact List.mem_singleton.mp hq)
    rfl

/-- C9: `statistics().totalRules` always equals the sum over the six
categories of the length of `rules-by-category`, because every rule has
exactly one category. -/
theorem C9_totalRules_eq_sum_categories (rules : List ErrorRule) :
    (getStats rules).totalRules =
      (getRulesByCategory rules Category.javascript).length +
      (getRulesByCategory rules Category.nodejs).length +
      (getRulesByCategory rules Category.react).length +
      (getRulesByCategory rules Category.network).length +
      (getRulesByCategory rules Category.async).length +
      (getRulesByCategory rules Category.json).length := by
  show rules.length = _
  induction rules with
  | nil => rfl
  | cons r rs ih =>
    simp only [getRulesByCategory, List.filter_cons] at *
    rcases hc : r.category <;> simp [hc, ih] <;> omega

/-- Helper for C6: `find-best-match` on the shipped catalog at the C6
scenario error, projected to (rule id, confidence).  Exactly one catalog
rule matches (`undefined-property`), and its confidence is 55 hundredths
= 0.55: base 0.5 plus the 0.05 high-severity bonus; the rule's title
"Trying to use something that doesn\x27t exist" does not occur in the
message, so the 0.3 title bonus does not apply. -/
theorem findMatch_c6_eval :
    (findMatch coreRules c6error none).map (fun m => (m.rule.id, m.confidence)) =
      some ("undefined-property", 55) := by
  have hlen : (ruleMatches coreRules c6error none).length = 1 := by decide
  rcases List.length_eq_one.mp hlen with ⟨m, hm⟩
  have hproj : (ruleMatches coreRules c6error none).map
      (fun m => (m.rule.id, m.confidence)) = [("undefined-property", 55)] := by
    decide
  rw [hm, List.map_cons, List.map_nil] at hproj
  have hfm : findMatch coreRules c6error none = some m := by
    show sortHead (ruleMatches coreRules c6error none) = some m
    rw [hm]
    exact sortHead_singleton m
  rw [hfm]
  injection hproj with h _
  simp [h]

/-- C6 (counterexample): at the C6 scenario, `find-best-match` does
return the undefined-property rule, but with confidence 0.55 (= 55
hundredths), which is below the claimed bound 0.8 (= 80): the
title-substring bonus does not apply. -/
theorem C6_counterexample :
    (findMatch coreRules c6error none).map (fun m => (m.rule.id, m.confidence)) =
      some ("undefined-property", 55) ∧ (55 : Nat) < 80 :=
  ⟨findMatch_c6_eval, by decide⟩

/-- C6 (amended claim, proved): for the error
`{ name: "TypeError", message: "Cannot read properties of undefined (reading 'map')" }`
with no context, `find-best-match` against the shipped catalog returns a
match whose rule is the undefined-property rule with confidence exactly
0.55 (0.5 base + 0.05 high-severity bonus; the title-substring bonus
does not apply since the message does not contain the rule's title). -/
theorem C6_undefined_property_scenario :
    (findMatch coreRules c6error none).map (fun m => (m.rule.id, m.confidence)) =
      some ("undefined-property", 55) :=
  findMatch_c6_eval

/-- C4 (counterexample): with a throwing predicate first in the rule
set, `find-best-match` propagates the fault instead of behaving like the
claim's isolating engine, which skips the faulting rule and returns the
best match among the remaining rules (here the c4-ok rule). -/
theorem C4_counterexample :
    findMatchE [c4faultRule, c4okRule] c4error none = Except.error () ∧
    (findMatchIsolated [c4faultRule, c4okRule] c4error none).map
      (fun m => m.rule.id) = some "c4-ok" := by
  constructor
  · rfl
  · have h : collectMatchesIsolated [c4faultRule, c4okRule] c4error none =
        [⟨c4okRule, c4error, calculateConfidence c4okRule c4error none⟩] := rfl
    show (sortHead (collectMatchesIsolated [c4faultRule, c4okRule] c4error none)).map
      (fun m => m.rule.id) = some "c4-ok"
    rw [h, sortHead_singleton]
    rfl

/-- C4 (amended claim, proved): if every rule before rule i evaluates
its predicate without fault and rule i's predicate faults, then
`find-best-match` propagates the fault: the remaining rules are not
evaluated and no match is returned. -/
theorem C4_fault_propagates (pre post : List ErrorRuleE) (f : ErrorRuleE)
    (error : JsError) (context : Option ErrorContext)
    (hpre : ∀ r ∈ pre, ∃ b, r.matchPred error = Except.ok b)
    (hf : f.matchPred error = Except.error ()) :
    findMatchE (pre ++ f :: post) error context = Except.error () := by
  have hcollect : ∀ (pre' : List ErrorRuleE),
      (∀ r ∈ pre', ∃ b, r.matchPred error = Except.ok b) →
      collectMatchesE (pre' ++ f :: post) error context = Except.error () := by
    intro pre'
    induction pre' with
    | nil =>
      intro _
      simp only [List.nil_append, collectMatchesE, hf]
    | cons r rs ih =>
      intro hpre'
      rcases hpre' r (List.mem_cons_self r rs) with ⟨b, hb⟩
      have ih' := ih (fun q hq => hpre' q (List.mem_cons_of_mem r hq))
      simp only [List.cons_append, collectMatchesE, hb, ih']
      cases b
      · exact ih'
      · simp [List.append_eq, ih']
  simp only [findMatchE, hcollect pre hpre]

/-- Witness for C4 (amended): the rule set `[c4okRule] ++ [c4faultRule]`
has a non-faulting matching rule first and a faulting rule second, and
`find-best-match` faults. -/
theorem C4_witness :
    findMatchE ([c4okRule] ++ c4faultRule :: []) c4error none =
      Except.error () :=
  C4_fault_propagates [c4okRule] [] c4faultRule c4error none
    (by
      intro r hr
      rw [List.mem_singleton.mp hr]
      exact ⟨true, rfl⟩)
    rfl

/-- C5 (counterexample): for the error-like value
`{ name: "TypeError" }` with no message, `find-best-match` over the
shipped catalog does not behave as if the message were empty: the very
first catalog predicate dereferences `error.message` and the fault
propagates. -/
theorem C5_counterexample :
    findMatchU coreRulesU c5error none = Except.error () := rfl

/-- C5 (amended claim, proved): for every error-like input whose message
field is missing, `find-best-match` over the shipped catalog propagates
a fault (a TypeError from `undefined.includes` in the first rule's
predicate) instead of treating the message as the empty string. -/
theorem C5_missing_message_faults (name : String)
    (context : Option ErrorContext) :
    findMatchU coreRulesU ⟨name, none⟩ context = Except.error () := rfl

/-- C10: `prettyTry` never propagates an exception: a returned value
yields a success record carrying it; a thrown `Error` yields a failure
record whose explanation's message is the thrown error's message; any
other thrown value yields the generic unknown-error explanation whose
message is the `String(...)` conversion of the value. -/
theorem C10_prettyTry_total (T : Type) :
    (∀ v : T, prettyTry (Except.ok v) =
      { success := true, data := some v, error := none }) ∧
    (∀ e : JsError,
      prettyTry (Except.error (JsThrown.err e) : Except JsThrown T) =
        { success := false, data := none,
          error := some (getErrorExplanation e) } ∧
      (getErrorExplanation e).message = e.message) ∧
    (∀ s : String,
      prettyTry (Except.error (JsThrown.other s) : Except JsThrown T) =
        { success := false, data := none,
          error := some ⟨s, "An unknown error occurred.",
            "Check your code for potential issues.",
            some ["Add proper error handling", "Validate your inputs"]⟩ }) := by
  refine ⟨fun v => rfl, fun e => ⟨rfl, ?_⟩, fun s => rfl⟩
  unfold getErrorExplanation
  dsimp only
  split
  · rfl
  · split
    · rfl
    · rfl
